import Mathlib

/-
Verification development for the PyDDA variational wind-retrieval engine
(`pydda/retrieval/wind_retrieve.py` and `pydda/cost_functions/cost_functions.py`).

Modelling conventions:
* Floating-point arrays are idealised as total functions `ℕ → ℕ → ℕ → ℝ`
  (indexed `[z, y, x]`), with the grid dimensions passed separately where an
  operation needs them (as `np.gradient` or a wrap-around Laplacian does).
  Driver-level code that only compares and accumulates scalars (the burst loop,
  the fall-speed band selection, the masking stage, the configuration check) is
  modelled over `ℚ`, where every comparison is decidable.
* A masked array is a value array paired with a Boolean mask array.
* External collaborators (scipy's `fmin_l_bfgs_b`, `savgol_filter`, pyart's
  projection) are taken as parameters of the fragments that consume them.
* Python's keyword-argument calling convention is modelled for the one call
  site where it matters: a call passing a keyword the callee's signature does
  not accept evaluates to a `TypeError`.
-/

noncomputable section

/-- A 3D scalar field, indexed `[z, y, x]`. -/
abbrev F3 : Type := ℕ → ℕ → ℕ → ℝ

/-- A 3D scalar field over `ℚ`, used for the driver-level weight bookkeeping. -/
abbrev FQ3 : Type := ℕ → ℕ → ℕ → ℚ

/-- The all-zero field (`np.zeros`). -/
def zeroF : F3 := fun _ _ _ => 0

/-- Pointwise sum of two fields. -/
def addF (f g : F3) : F3 := fun k j i => f k j i + g k j i

/-- Python exception kinds raised by the code under study. -/
inductive PyErr : Type
  | typeError
  | valueError
  deriving DecidableEq

/-- One radar's observation data, as consumed by the cost and gradient terms:
radial velocity `vr`, azimuth `az` and elevation `el` (radians), fall speed
`wt`, each with its validity mask (`True` = cell is masked/invalid). -/
structure RadarObs : Type where
  vr : F3
  vrMask : ℕ → ℕ → ℕ → Bool
  az : F3
  azMask : ℕ → ℕ → ℕ → Bool
  el : F3
  elMask : ℕ → ℕ → ℕ → Bool
  wt : F3
  wtMask : ℕ → ℕ → ℕ → Bool

/-- A wind field: the three components `u`, `v`, `w` (stacked axis 0 of the
flattened optimiser vector). -/
structure Wind : Type where
  u : F3
  v : F3
  w : F3

/-- Pointwise sum of gradients (`grad += ...` in `grad_J`). -/
def Wind.add (a b : Wind) : Wind := ⟨addF a.u b.u, addF a.v b.v, addF a.w b.w⟩

instance : Add Wind := ⟨Wind.add⟩

/-- Sum of a field over the whole `nz × ny × nx` grid (`np.sum`). -/
def gridSum (nz ny nx : ℕ) (f : F3) : ℝ :=
  ∑ k ∈ Finset.range nz, ∑ j ∈ Finset.range ny, ∑ i ∈ Finset.range nx, f k j i

/-- Zero an array at every cell where the given mask is set
(`arr[mask == True] = 0`). -/
def maskZero (m : ℕ → ℕ → ℕ → Bool) (arr : F3) : F3 :=
  fun k j i => if m k j i then 0 else arr k j i

/-- Sequentially zero an array at every cell where any of a radar's four masks
is set, in the order the source applies them (el, az, vr, wt). Used both for
`the_weight` in `calculate_radial_vel_cost_function` and for the per-component
gradient arrays in `calculate_grad_radial_vel`. -/
def applyObsMasks (r : RadarObs) (arr : F3) : F3 :=
  maskZero r.wtMask (maskZero r.vrMask (maskZero r.azMask (maskZero r.elMask arr)))

/-- Projection of the wind field onto a radar's line of sight:
`cos(el)*sin(az)*u + cos(el)*cos(az)*v + sin(el)*(w - |wts|)` (the `v_ar`
array of the radial-velocity cost and gradient). -/
def radialProjection (r : RadarObs) (u v w : F3) : F3 := fun k j i =>
  Real.cos (r.el k j i) * Real.sin (r.az k j i) * u k j i +
    Real.cos (r.el k j i) * Real.cos (r.az k j i) * v k j i +
    Real.sin (r.el k j i) * (w k j i - |r.wt k j i|)

/-- One iteration of the radar loop in `calculate_radial_vel_cost_function`:
zero the radar's weight array at masked cells in place (`the_weight`), and add
`lambda_o * sum(square(vrs[i] - v_ar) * the_weight)` to the accumulator.  The
state carries both the running cost `J_o` and the (mutated) weight arrays. -/
def radialStep (nz ny nx : ℕ) (u v w : F3) (lambda_o : ℝ)
    (acc : ℝ × List F3) (rw : RadarObs × F3) : ℝ × List F3 :=
  let v_ar := radialProjection rw.1 u v w
  let the_weight := applyObsMasks rw.1 rw.2
  (acc.1 + lambda_o *
      gridSum nz ny nx (fun k j i => (rw.1.vr k j i - v_ar k j i) ^ 2 * the_weight k j i),
    acc.2 ++ [the_weight])

/-- `calculate_radial_vel_cost_function`: the data term `J_o` of the cost
function, with `lambda_o = coeff / (rmsVr * rmsVr)`.  The second component of
the result is the list of weight arrays after the in-place masking the loop
performs on them. -/
def calculate_radial_vel_cost_function (nz ny nx : ℕ) (radars : List RadarObs)
    (u v w : F3) (rmsVr : ℝ) (weights : List F3) (coeff : ℝ) : ℝ × List F3 :=
  (radars.zip weights).foldl (radialStep nz ny nx u v w (coeff / (rmsVr * rmsVr))) (0, [])

/-- The driver's normalisation constant (`wind_retrieve.py` lines 217-219):
`sum_Vr = np.sum(np.square(vrs * weights))` over all radars and cells, and
`rmsVr = np.sum(sum_Vr) / np.sum(weights)` — the mean of the weighted squared
radial velocities (its square root is never taken). -/
def rmsVr_code (nz ny nx : ℕ) (radars : List RadarObs) (weights : List F3) : ℝ :=
  ((radars.zip weights).map
      (fun rw => gridSum nz ny nx (fun k j i => (rw.1.vr k j i * rw.2 k j i) ^ 2))).sum /
    ((weights.map (fun wt => gridSum nz ny nx wt)).sum)

/-- The root mean square of the valid radial velocities, as the specification
describes the normalisation constant: the square root of the weighted mean of
the squared radial velocities. -/
def rmsOfValid (nz ny nx : ℕ) (radars : List RadarObs) (weights : List F3) : ℝ :=
  Real.sqrt (rmsVr_code nz ny nx radars weights)

/-- The data term exactly as the claim states it:
`Co / rmsVr² · Σ_radars Σ_cells weight · (observed - projected)²` with `rmsVr`
being the root mean square `rmsOfValid` of the valid radial velocities. -/
def dataTermClaim (nz ny nx : ℕ) (radars : List RadarObs) (weights : List F3)
    (u v w : F3) (coeff : ℝ) : ℝ :=
  coeff / (rmsOfValid nz ny nx radars weights * rmsOfValid nz ny nx radars weights) *
    ((radars.zip weights).map
        (fun rw => gridSum nz ny nx (fun k j i =>
          rw.2 k j i * (rw.1.vr k j i - radialProjection rw.1 u v w k j i) ^ 2))).sum

/-- `np.gradient` along axis 0 (z) with spacing `d` on an axis of length `nz`:
one-sided differences at the two edges, central differences inside. -/
def npGradZ (nz : ℕ) (f : F3) (d : ℝ) : F3 := fun k j i =>
  if k = 0 then (f 1 j i - f 0 j i) / d
  else if k = nz - 1 then (f (nz - 1) j i - f (nz - 2) j i) / d
  else (f (k + 1) j i - f (k - 1) j i) / (2 * d)

/-- `np.gradient` along axis 1 (y). -/
def npGradY (ny : ℕ) (f : F3) (d : ℝ) : F3 := fun k j i =>
  if j = 0 then (f k 1 i - f k 0 i) / d
  else if j = ny - 1 then (f k (ny - 1) i - f k (ny - 2) i) / d
  else (f k (j + 1) i - f k (j - 1) i) / (2 * d)

/-- `np.gradient` along axis 2 (x). -/
def npGradX (nx : ℕ) (f : F3) (d : ℝ) : F3 := fun k j i =>
  if i = 0 then (f k j 1 - f k j 0) / d
  else if i = nx - 1 then (f k j (nx - 1) - f k j (nx - 2)) / d
  else (f k j (i + 1) - f k j (i - 1)) / (2 * d)

/-- `scipy.ndimage.filters.laplace` with `mode='wrap'`: the sum over the three
axes of the second difference with periodic boundary handling. -/
def lapWrap (nz ny nx : ℕ) (f : F3) : F3 := fun k j i =>
  (f ((k + 1) % nz) j i - 2 * f k j i + f ((k + nz - 1) % nz) j i) +
    (f k ((j + 1) % ny) i - 2 * f k j i + f k ((j + ny - 1) % ny) i) +
    (f k j ((i + 1) % nx) - 2 * f k j i + f k j ((i + nx - 1) % nx))

/-- Zero a 3D array on one whole vertical level (`arr[lev, :, :] = 0`). -/
def setLevelZero (lev : ℕ) (f : F3) : F3 := fun k j i =>
  if k = lev then 0 else f k j i

/-- One iteration of the radar loop of `calculate_grad_radial_vel`: build the
fresh `x_grad`, `y_grad`, `z_grad` arrays from the residual, zero them at
masked cells, and accumulate them into `p_x1`, `p_y1`, `p_z1`. -/
def gradRadialStep (u v w : F3) (lambda_o : ℝ)
    (p : F3 × F3 × F3) (rw : RadarObs × F3) : F3 × F3 × F3 :=
  let v_ar := radialProjection rw.1 u v w
  let x_grad := applyObsMasks rw.1 (fun k j i =>
    2 * (v_ar k j i - rw.1.vr k j i) * Real.cos (rw.1.el k j i) *
      Real.sin (rw.1.az k j i) * rw.2 k j i * lambda_o)
  let y_grad := applyObsMasks rw.1 (fun k j i =>
    2 * (v_ar k j i - rw.1.vr k j i) * Real.cos (rw.1.el k j i) *
      Real.cos (rw.1.az k j i) * rw.2 k j i * lambda_o)
  let z_grad := applyObsMasks rw.1 (fun k j i =>
    2 * (v_ar k j i - rw.1.vr k j i) * Real.sin (rw.1.el k j i) *
      rw.2 k j i * lambda_o)
  (addF p.1 x_grad, addF p.2.1 y_grad, addF p.2.2 z_grad)

/-- `calculate_grad_radial_vel`: gradient of the data term.  After the radar
loop, the impermeability condition zeroes the w-component at the surface level
(`p_z1[0, :, :] = 0`) and, when `upper_bc` is set, at the top level
(`p_z1[-1, :, :] = 0`). -/
def calculate_grad_radial_vel (nz : ℕ) (radars : List RadarObs) (weights : List F3)
    (u v w : F3) (rmsVr coeff : ℝ) ( upper_bc : Bool) : Wind :=
  let lambda_o := coeff / (rmsVr * rmsVr)
  let p := (radars.zip weights).foldl (gradRadialStep u v w lambda_o) (zeroF, zeroF, zeroF)
  let p_z1 := setLevelZero 0 p.2.2
  let p_z1 := if upper_bc then setLevelZero (nz - 1) p_z1 else p_z1
  ⟨p.1, p.2.1, p_z1⟩

/-- `calculate_smoothness_gradient`: Laplacian of the Laplacian of each wind
component, with the impermeability condition applied to the w-component before
the final scaling by `2 * C`. -/
def calculate_smoothness_gradient (nz ny nx : ℕ) (u v w : F3) (Cx Cy Cz : ℝ)
    ( upper_bc : Bool) : Wind :=
  let du := lapWrap nz ny nx u
  let dv := lapWrap nz ny nx v
  let dw := lapWrap nz ny nx w
  let grad_u := lapWrap nz ny nx du
  let grad_v := lapWrap nz ny nx dv
  let grad_w := lapWrap nz ny nx dw
  let grad_w := setLevelZero 0 grad_w
  let grad_w := if upper_bc then setLevelZero (nz - 1) grad_w else grad_w
  ⟨fun k j i => grad_u k j i * Cx * 2,
   fun k j i => grad_v k j i * Cy * 2,
   fun k j i => grad_w k j i * Cz * 2⟩

/-- `calculate_mass_continuity_gradient`: minus the gradient of the (anelastic)
divergence, scaled by `coeff`, with the impermeability condition applied to the
w-component. -/
def calculate_mass_continuity_gradient (nz ny nx : ℕ) (u v w z : F3)
    (dx dy dz coeff : ℝ) (anel : ℕ) ( upper_bc : Bool) : Wind :=
  let dudx := npGradX nx u dx
  let dvdy := npGradY ny v dy
  let dwdz := npGradZ nz w dz
  let anel_term : F3 :=
    if anel = 1 then
      let rho : F3 := fun k j i => Real.exp (-(z k j i) / 10000)
      let drho_dz := npGradZ nz rho dz
      fun k j i => w k j i / rho k j i * drho_dz k j i
    else zeroF
  let div2 : F3 := fun k j i => dudx k j i + dvdy k j i + dwdz k j i + anel_term k j i
  let grad_u : F3 := fun k j i => -npGradX nx div2 dx k j i * coeff
  let grad_v : F3 := fun k j i => -npGradY ny div2 dy k j i * coeff
  let grad_w : F3 := fun k j i => -npGradZ nz div2 dz k j i * coeff
  let grad_w := setLevelZero 0 grad_w
  let grad_w := if upper_bc then setLevelZero (nz - 1) grad_w else grad_w
  ⟨grad_u, grad_v, grad_w⟩

/-- `calculate_background_gradient` (note: its signature accepts no boundary
flag; the w-component of its output is identically zero). -/
def calculate_background_gradient (u v w : F3) (weights : F3)
    (u_back v_back : ℕ → ℝ) (Cb : ℝ) : Wind :=
  ⟨fun k j i => Cb * 2 * (u k j i - u_back k) * weights k j i,
   fun k j i => Cb * 2 * (v k j i - v_back k) * weights k j i,
   zeroF⟩

/-- `calculate_vertical_vorticity_gradient`, transcribed term for term from the
source (including its use of axis 2 for `dvdy` and of `dudx` in `dudy2`, and
the accumulation of both stretching lines into `u_grad`).  No impermeability
condition is applied to `w_grad` here. -/
def calculate_vertical_vorticity_gradient (nz ny nx : ℕ) (u v w : F3)
    (dx dy dz Ut Vt coeff : ℝ) : Wind :=
  let dvdz := npGradZ nz v dz
  let dudz := npGradZ nz u dz
  let dwdy := npGradY ny w dy
  let dudx := npGradX nx u dx
  let dvdy := npGradX nx v dy
  let dwdx := npGradX nx w dx
  let dvdx := npGradX nx v dx
  let dudy := npGradY ny u dy
  let zeta : F3 := fun k j i => dvdx k j i - dudy k j i
  let dzeta_dx := npGradX nx zeta dx
  let dzeta_dy := npGradY ny zeta dy
  let dzeta_dz := npGradZ nz zeta dz
  let dwdydz := npGradZ nz dwdy dz
  let dwdxdz := npGradZ nz dwdx dz
  let dudzdy := npGradY ny dudz dy
  let dvdxdy := npGradY ny dvdx dy
  let dudx2 := npGradX nx dudx dx
  let dudxdy := npGradY ny dudx dy
  let dudxdz := npGradZ nz dudx dz
  let dudy2 := npGradY ny dudx dy
  let dzeta_dt : F3 := fun k j i =>
    (u k j i - Ut) * dzeta_dx k j i + (v k j i - Vt) * dzeta_dy k j i +
      w k j i * dzeta_dz k j i +
      (dvdz k j i * dwdx k j i - dudz k j i * dwdy k j i) +
      zeta k j i * (dudx k j i + dvdy k j i)
  let u_grad : F3 := fun k j i =>
    ((dzeta_dx k j i + (Ut - u k j i) * dudxdy k j i + (Vt - v k j i) * dudxdy k j i) +
        dwdydz k j i +
        (-dudxdy k j i + dudy2 k j i - dzeta_dx k j i) +
        (-dudx2 k j i + dudxdy k j i - dzeta_dy k j i)) * 2 * dzeta_dt k j i * coeff
  let v_grad : F3 := fun k j i =>
    ((dzeta_dy k j i + (Vt - v k j i) * dvdxdy k j i + (Ut - u k j i) * dvdxdy k j i) +
        dwdxdz k j i) * 2 * dzeta_dt k j i * coeff
  let w_grad : F3 := fun k j i =>
    (dzeta_dz k j i + (dudzdy k j i - dudxdz k j i)) * 2 * dzeta_dt k j i * coeff
  ⟨u_grad, v_grad, w_grad⟩

/-- The parameter names of `calculate_background_gradient`'s Python signature. -/
def calculate_background_gradient_argnames : List String :=
  ["u", "v", "w", "weights", "u_back", "v_back", "Cb"]

/-- Python keyword-argument call semantics: the call succeeds when every passed
keyword is among the callee's parameter names and raises `TypeError` otherwise. -/
def callPython (accepted kwargs : List String) (result : Wind) : Except PyErr Wind :=
  if kwargs.all (fun s => accepted.contains s) then Except.ok result
  else Except.error PyErr.typeError

/-- `grad_J`: the total gradient of the cost function.  The data-term gradient
is always computed; the mass-continuity, smoothness, background and vorticity
gradients are added when their coefficients are positive.  The background call
passes `upper_bc=upper_bc` as a keyword argument, which the signature of
`calculate_background_gradient` does not accept. -/
def grad_J (nz ny nx : ℕ) (radars : List RadarObs) (weights : List F3)
    (bg_weights : F3) (u_back v_back : ℕ → ℝ) (u v w z : F3)
    (Co Cm Cx Cy Cz Cb Cv Ut Vt dx dy dz rmsVr : ℝ) ( upper_bc : Bool) :
    Except PyErr Wind :=
  let grad := calculate_grad_radial_vel nz radars weights u v w rmsVr Co upper_bc
  let grad := if Cm > 0 then
      grad + calculate_mass_continuity_gradient nz ny nx u v w z dx dy dz Cm 1 upper_bc
    else grad
  let grad := if Cx > 0 ∨ Cy > 0 ∨ Cz > 0 then
      grad + calculate_smoothness_gradient nz ny nx u v w Cx Cy Cz upper_bc
    else grad
  let withBg : Except PyErr Wind :=
    if Cb > 0 then
      Except.map (fun bg => grad + bg)
        (callPython calculate_background_gradient_argnames ["upper_bc"]
          (calculate_background_gradient u v w bg_weights u_back v_back Cb))
    else Except.ok grad
  Except.map (fun g =>
      if Cv > 0 then
        g + calculate_vertical_vorticity_gradient nz ny nx u v w dx dy dz Ut Vt Cv
      else g)
    withBg

/-- The w-component of a gradient result at the surface level; an errored
gradient evaluation contributes the placeholder 0. -/
def surfaceGradW (r : Except PyErr Wind) (j i : ℕ) : ℝ :=
  match r with
  | Except.ok g => g.w 0 j i
  | Except.error _ => 0

/-- The `A` coefficient selected by `calculate_fall_speed` for a cell with
height `z`, freezing level `frz` and reflectivity `refl`.  The source
initialises `A` to zero and then assigns each band through a boolean mask; the
band conditions are mutually exclusive, so the sequential masked assignments
amount to this case split, with 0 surviving where no band matches. -/
def fallSpeedA (z frz refl : ℚ) : ℚ :=
  if z < frz ∧ refl < 55 then -2.6
  else if z < frz ∧ (55 ≤ refl ∧ refl < 60) then -2.5
  else if z < frz ∧ refl > 60 then -3.95
  else if z ≥ frz ∧ refl < 33 then -0.817
  else if z ≥ frz ∧ (33 ≤ refl ∧ refl < 49) then -2.5
  else if z ≥ frz ∧ refl > 49 then -3.95
  else 0

/-- The `B` coefficient selected by `calculate_fall_speed`, mirroring
`fallSpeedA` band for band. -/
def fallSpeedB (z frz refl : ℚ) : ℚ :=
  if z < frz ∧ refl < 55 then 0.0107
  else if z < frz ∧ (55 ≤ refl ∧ refl < 60) then 0.013
  else if z < frz ∧ refl > 60 then 0.0148
  else if z ≥ frz ∧ refl < 33 then 0.0063
  else if z ≥ frz ∧ (33 ≤ refl ∧ refl < 49) then 0.013
  else if z ≥ frz ∧ refl > 49 then 0.0148
  else 0

/-- The documented per-band coefficient pairs of the fall-speed estimator. -/
def fallSpeedBandPairs : List (ℚ × ℚ) :=
  [(-2.6, 0.0107), (-2.5, 0.013), (-3.95, 0.0148), (-0.817, 0.0063)]

/-- The storm-motion configuration check at the top of `get_dd_wind_field`
(lines 127-130): if `Ut` or `Vt` is missing while the vertical-vorticity
coefficient is nonzero, a `ValueError` is raised before anything else runs. -/
def validateStormMotion (Ut Vt : Option ℚ) (Cv : ℚ) : Except PyErr Unit :=
  if Ut = none ∨ Vt = none then
    if Cv ≠ 0 then Except.error PyErr.valueError else Except.ok ()
  else Except.ok ()

/-- `np.max` over the (nonempty) flattened w-field, modelled on lists. -/
def npMax (l : List ℚ) : ℚ :=
  match l with
  | [] => 0
  | h :: t => t.foldl max h

/-- The maximum of the absolute values — the quantity the specification's
stopping rule describes. -/
def npAbsMax (l : List ℚ) : ℚ := npMax (l.map (fun x => |x|))

/-- The first-pass (raw-solve) burst loop of `get_dd_wind_field` (lines
250-285), with the bounded optimiser abstracted as an oracle `opt` giving the
flattened w-field produced by each burst.  State: burst counter, `iterations`,
`wprevmax`, `wcurrmax`.  The loop continues while
`iterations < max_iterations and abs(wprevmax - wcurrmax) > 0.02`, and after
each burst sets `wcurrmax = winds[2].max()` (a plain maximum).  Returns the
final iteration count. -/
def rawSolveIter (opt : ℕ → List ℚ) (maxIter : ℕ) (burst iterations : ℕ)
    (wprevmax wcurrmax : ℚ) : ℕ :=
  if h : iterations < maxIter ∧ |wprevmax - wcurrmax| > 0.02 then
    rawSolveIter opt maxIter (burst + 1) (iterations + 10) wcurrmax (npMax (opt burst))
  else iterations
termination_by maxIter - iterations
decreasing_by
  obtain ⟨h1, -⟩ := h
  omega

/-- Entry into the raw-solve loop: `wprevmax = 99`,
`wcurrmax = w_init.max()`, `iterations = 0`. -/
def rawSolve (opt : ℕ → List ℚ) (maxIter : ℕ) (w_init : List ℚ) : ℕ :=
  rawSolveIter opt maxIter 0 0 99 (npMax w_init)

/-- The raw-solve loop as the claim reads it: the burst measure is the maximum
of `|w|` rather than the plain maximum. -/
def rawSolveClaimIter (opt : ℕ → List ℚ) (maxIter : ℕ) (burst iterations : ℕ)
    (wprevmax wcurrmax : ℚ) : ℕ :=
  if h : iterations < maxIter ∧ |wprevmax - wcurrmax| > 0.02 then
    rawSolveClaimIter opt maxIter (burst + 1) (iterations + 10) wcurrmax (npAbsMax (opt burst))
  else iterations
termination_by maxIter - iterations
decreasing_by
  obtain ⟨h1, -⟩ := h
  omega

/-- Entry into the claim's reading of the raw-solve loop. -/
def rawSolveClaim (opt : ℕ → List ℚ) (maxIter : ℕ) (w_init : List ℚ) : ℕ :=
  rawSolveClaimIter opt maxIter 0 0 99 (npAbsMax w_init)

/-- The filter stage of `get_dd_wind_field` (lines 288-300): when
`filt_iterations > 0` each wind component is passed through
`savgol_filter(·, 9, 3, axis)` for the three axes in turn.  `savgol` is the
external scipy collaborator, taken as a parameter `(field, window, order,
axis)`; the driver's `filter_window` and `filter_order` arguments are received
but the calls hard-code window 9 and order 3. -/
def filterWinds (savgol : F3 → ℕ → ℕ → ℕ → F3)
    (filter_window filter_order : ℕ) (winds : Wind) : Wind :=
  let u := savgol winds.u 9 3 0
  let u := savgol u 9 3 1
  let u := savgol u 9 3 2
  let v := savgol winds.v 9 3 0
  let v := savgol v 9 3 1
  let v := savgol v 9 3 2
  let w := savgol winds.w 9 3 0
  let w := savgol w 9 3 1
  let w := savgol w 9 3 2
  ⟨u, v, w⟩

/-- `np.sum(weights, axis=0)`: the total multi-radar weight at each cell. -/
def whereMaskSum (weights : List FQ3) : FQ3 := fun k j i =>
  (weights.map (fun wt => wt k j i)).sum

/-- The masking stage of `get_dd_wind_field` (lines 334-340): with
`where_mask = np.sum(weights, axis=0)`, the u, v, w fields are masked where
`where_mask < 1` if `mask_outside_opt` is true, and w is (re)masked under the
same condition if `mask_w_outside_opt` is true.  Returns the resulting output
masks for (u, v, w). -/
def maskStage (mask_outside_opt mask_w_outside_opt : Bool) (weights : List FQ3) :
    (ℕ → ℕ → ℕ → Bool) × (ℕ → ℕ → ℕ → Bool) × (ℕ → ℕ → ℕ → Bool) :=
  let wm := whereMaskSum weights
  let base : ℕ → ℕ → ℕ → Bool := fun k j i =>
    mask_outside_opt && decide (wm k j i < 1)
  (base, base,
    fun k j i => base k j i || (mask_w_outside_opt && decide (wm k j i < 1)))

/-- `math.radians`: degrees to radians. -/
def radiansOf (d : ℝ) : ℝ := d * Real.pi / 180

/-- The ordered list of radar pairs `(i, j)` with `i < j` visited by the
weight-computation double loop of `get_dd_wind_field` (lines 182-183). -/
def radarPairs (n : ℕ) : List (ℕ × ℕ) :=
  (List.range n).flatMap (fun i => ((List.range n).drop (i + 1)).map (fun j => (i, j)))

/-- The background-weight update for one radar pair `(i, j)` and one vertical
level `k` (`wind_retrieve.py` lines 209-214).  `cur_array` is a view of
`bg_weights[k]`: cells satisfying `bca >= radians(min_bca) or
bca <= radians(max_bca)` are set to 1, then cells where radar `i`'s
radial-velocity observation is masked are set to 0; finally the updated level
is also written into `bg_weights[i]` (indexed by the radar number, not the
level). -/
def bgPairLevelStep (bcaij : ℕ → ℕ → ℝ) (min_bca max_bca : ℝ)
    (vrsMask : ℕ → ℕ → ℕ → ℕ → Bool) (iRadar k : ℕ)
    (bg : ℕ → ℕ → ℕ → ℚ) : ℕ → ℕ → ℕ → ℚ :=
  let cur : ℕ → ℕ → ℚ := fun y x =>
    if vrsMask iRadar k y x then 0
    else if radiansOf min_bca ≤ bcaij y x ∨ bcaij y x ≤ radiansOf max_bca then 1
    else bg k y x
  fun l y x => if l = k then cur y x else if l = iRadar then cur y x else bg l y x

/-- The full background-weight computation: starting from `np.zeros`, fold the
per-level update over every vertical level of every radar pair. -/
def bgWeightsLoop (nRadars nz : ℕ) (bca : ℕ → ℕ → ℕ → ℕ → ℝ)
    (min_bca max_bca : ℝ) (vrsMask : ℕ → ℕ → ℕ → ℕ → Bool) : ℕ → ℕ → ℕ → ℚ :=
  (radarPairs nRadars).foldl
    (fun bg p =>
      (List.range nz).foldl
        (fun b k => bgPairLevelStep (bca p.1 p.2) min_bca max_bca vrsMask p.1 k b) bg)
    (fun _ _ _ => 0)

/-- The background weight as the claim states it: for pair `(i, j)` and level
`k`, weight 1 exactly where the pair's crossing angle lies within the
configured `[min_bca, max_bca]` range and the primary radar's radial-velocity
observation at that cell is valid, and 0 elsewhere. -/
def bgWeightsClaim (bca : ℕ → ℕ → ℕ → ℕ → ℝ) (min_bca max_bca : ℝ)
    (vrsMask : ℕ → ℕ → ℕ → ℕ → Bool) (iRadar j k y x : ℕ) : ℚ :=
  if (radiansOf min_bca ≤ bca iRadar j y x ∧ bca iRadar j y x ≤ radiansOf max_bca) ∧
      vrsMask iRadar k y x = false
  then 1 else 0

/-- Concrete field: all ones (a valid binary weight array). -/
def oneF : F3 := fun _ _ _ => 1

/-- Concrete radar for the data-term counterexamples: radial velocity 2
everywhere, zero azimuth/elevation/fall speed, nothing masked. -/
def cexRadar : RadarObs :=
  ⟨fun _ _ _ => 2, fun _ _ _ => false, zeroF, fun _ _ _ => false,
    zeroF, fun _ _ _ => false, zeroF, fun _ _ _ => false⟩

/-- Concrete radar whose radial-velocity observations are all masked. -/
def cexMaskedRadar : RadarObs :=
  ⟨fun _ _ _ => 2, fun _ _ _ => true, zeroF, fun _ _ _ => false,
    zeroF, fun _ _ _ => false, zeroF, fun _ _ _ => false⟩

/-- Concrete v-field `v(k, j, i) = k * i` for the vorticity counterexample. -/
def cexV : F3 := fun k _ i => (k : ℝ) * (i : ℝ)

/-- The w-component of a sum of gradients is the pointwise sum. -/
theorem Wind.add_w_apply (a b : Wind) (k j i : ℕ) :
    (a + b).w k j i = a.w k j i + b.w k j i := rfl

/-- Closed form of the radar fold in `calculate_radial_vel_cost_function`:
the accumulated cost is `lambda_o` times the sum of the per-radar weighted
residual sums, and the weight list comes back with each array zeroed at its
radar's masked cells. -/
theorem radialFold_spec (nz ny nx : ℕ) (u v w : F3) (lambda_o : ℝ)
    (pairs : List (RadarObs × F3)) :
    ∀ (a : ℝ) (ws : List F3),
      pairs.foldl (radialStep nz ny nx u v w lambda_o) (a, ws) =
        (a + lambda_o * (pairs.map (fun rw => gridSum nz ny nx (fun k j i =>
              (rw.1.vr k j i - radialProjection rw.1 u v w k j i) ^ 2 *
                applyObsMasks rw.1 rw.2 k j i))).sum,
          ws ++ pairs.map (fun rw => applyObsMasks rw.1 rw.2)) := by
  induction pairs with
  | nil => intro a ws; simp
  | cons p ps ih =>
    intro a ws
    simp only [List.foldl_cons, List.map_cons, List.sum_cons, radialStep, ih]
    simp only [Prod.mk.injEq]
    constructor
    · ring
    · simp

/-- The keyword-argument check of the background-gradient call site fails:
`upper_bc` is not among `calculate_background_gradient`'s parameters. -/
theorem callPython_upper_bc_typeError (r : Wind) :
    callPython calculate_background_gradient_argnames ["upper_bc"] r =
      Except.error PyErr.typeError := by
  have hc : (["upper_bc"].all
      (fun s => calculate_background_gradient_argnames.contains s)) = false := by
    decide
  simp [callPython, hc]
  decide

/-- Whenever the background coefficient is positive, `grad_J` propagates the
`TypeError` raised by the keyword-argument mismatch. -/
theorem grad_J_error_of_Cb_pos (nz ny nx : ℕ) (radars : List RadarObs)
    (weights : List F3) (bg_weights : F3) (u_back v_back : ℕ → ℝ) (u v w z : F3)
    (Co Cm Cx Cy Cz Cb Cv Ut Vt dx dy dz rmsVr : ℝ) (ub : Bool) (hCb : Cb > 0) :
    grad_J nz ny nx radars weights bg_weights u_back v_back u v w z
      Co Cm Cx Cy Cz Cb Cv Ut Vt dx dy dz rmsVr ub = Except.error PyErr.typeError := by
  simp only [grad_J]
  rw [if_pos hCb, callPython_upper_bc_typeError]
  rfl

/-- Unfolding lemma for one step of the raw-solve burst loop. -/
theorem rawSolveIter_step (opt : ℕ → List ℚ) (maxIter burst iterations : ℕ)
    (wprevmax wcurrmax : ℚ) :
    rawSolveIter opt maxIter burst iterations wprevmax wcurrmax =
      if iterations < maxIter ∧ |wprevmax - wcurrmax| > 0.02 then
        rawSolveIter opt maxIter (burst + 1) (iterations + 10) wcurrmax (npMax (opt burst))
      else iterations := by
  rw [rawSolveIter]
  by_cases h : iterations < maxIter ∧ |wprevmax - wcurrmax| > 0.02
  · rw [dif_pos h, if_pos h]
  · rw [dif_neg h, if_neg h]

/-- Unfolding lemma for one step of the claim's reading of the loop. -/
theorem rawSolveClaimIter_step (opt : ℕ → List ℚ) (maxIter burst iterations : ℕ)
    (wprevmax wcurrmax : ℚ) :
    rawSolveClaimIter opt maxIter burst iterations wprevmax wcurrmax =
      if iterations < maxIter ∧ |wprevmax - wcurrmax| > 0.02 then
        rawSolveClaimIter opt maxIter (burst + 1) (iterations + 10) wcurrmax
          (npAbsMax (opt burst))
      else iterations := by
  rw [rawSolveClaimIter]
  by_cases h : iterations < maxIter ∧ |wprevmax - wcurrmax| > 0.02
  · rw [dif_pos h, if_pos h]
  · rw [dif_neg h, if_neg h]

/-- The data-term gradient's w-component vanishes on the surface level. -/
theorem grad_radial_w_surface (nz : ℕ) (radars : List RadarObs) (weights : List F3)
    (u v w : F3) (rmsVr coeff : ℝ) (ub : Bool) (j i : ℕ) :
    (calculate_grad_radial_vel nz radars weights u v w rmsVr coeff ub).w 0 j i = 0 := by
  unfold calculate_grad_radial_vel
  cases ub <;> simp [setLevelZero]

/-- The data-term gradient's w-component vanishes on the top level when the
upper boundary condition is enforced. -/
theorem grad_radial_w_top (nz : ℕ) (radars : List RadarObs) (weights : List F3)
    (u v w : F3) (rmsVr coeff : ℝ) (j i : ℕ) :
    (calculate_grad_radial_vel nz radars weights u v w rmsVr coeff true).w (nz - 1) j i = 0 := by
  unfold calculate_grad_radial_vel
  simp [setLevelZero]

/-- The mass-continuity gradient's w-component vanishes on the surface level. -/
theorem mass_gradient_w_surface (nz ny nx : ℕ) (u v w z : F3)
    (dx dy dz coeff : ℝ) (anel : ℕ) (ub : Bool) (j i : ℕ) :
    (calculate_mass_continuity_gradient nz ny nx u v w z dx dy dz coeff anel ub).w 0 j i = 0 := by
  unfold calculate_mass_continuity_gradient
  cases ub <;> simp [setLevelZero]

/-- The mass-continuity gradient's w-component vanishes on the top level when
the upper boundary condition is enforced. -/
theorem mass_gradient_w_top (nz ny nx : ℕ) (u v w z : F3)
    (dx dy dz coeff : ℝ) (anel : ℕ) (j i : ℕ) :
    (calculate_mass_continuity_gradient nz ny nx u v w z dx dy dz coeff anel true).w
      (nz - 1) j i = 0 := by
  unfold calculate_mass_continuity_gradient
  simp [setLevelZero]

/-- The smoothness gradient's w-component vanishes on the surface level. -/
theorem smoothness_gradient_w_surface (nz ny nx : ℕ) (u v w : F3)
    (Cx Cy Cz : ℝ) (ub : Bool) (j i : ℕ) :
    (calculate_smoothness_gradient nz ny nx u v w Cx Cy Cz ub).w 0 j i = 0 := by
  unfold calculate_smoothness_gradient
  cases ub <;> simp [setLevelZero]

/-- The smoothness gradient's w-component vanishes on the top level when the
upper boundary condition is enforced. -/
theorem smoothness_gradient_w_top (nz ny nx : ℕ) (u v w : F3)
    (Cx Cy Cz : ℝ) (j i : ℕ) :
    (calculate_smoothness_gradient nz ny nx u v w Cx Cy Cz true).w (nz - 1) j i = 0 := by
  unfold calculate_smoothness_gradient
  simp [setLevelZero]

/-- C4 (corrected): the raw-solve phase continues iterating exactly while the
iteration count is below the configured cap and the change in the maximum of w
(the plain maximum `npMax`, not the maximum of `|w|`) between consecutive
bursts exceeds 0.02 m/s; after each burst it recomputes that plain maximum
from the optimiser's w-field. -/
theorem rawSolve_stopping_rule (opt : ℕ → List ℚ) (maxIter burst iterations : ℕ)
    (wprevmax wcurrmax : ℚ) :
    rawSolveIter opt maxIter burst iterations wprevmax wcurrmax =
      if iterations < maxIter ∧ |wprevmax - wcurrmax| > 0.02 then
        rawSolveIter opt maxIter (burst + 1) (iterations + 10) wcurrmax (npMax (opt burst))
      else iterations :=
  rawSolveIter_step opt maxIter burst iterations wprevmax wcurrmax

/-- C4 counterexample: with an optimiser that always returns the w-field `[3]`
and the initial w-field `[-3]`, the loop as implemented (plain maximum) runs
two bursts (20 iterations) while the loop described by the claim (maximum of
`|w|`) would stop after one burst (10 iterations). -/
theorem rawSolve_max_vs_absmax :
    rawSolve (fun _ => [3]) 200 [-3] ≠ rawSolveClaim (fun _ => [3]) 200 [-3] := by
  have hm1 : npMax [(-3 : ℚ)] = -3 := by simp [npMax]
  have hm3 : npMax [(3 : ℚ)] = 3 := by simp [npMax]
  have ha1 : npAbsMax [(-3 : ℚ)] = 3 := by simp [npAbsMax, npMax]
  have ha3 : npAbsMax [(3 : ℚ)] = 3 := by simp [npAbsMax, npMax]
  have habs1 : |(99 : ℚ) - -3| = 102 := by rw [abs_of_nonneg] <;> norm_num
  have habs2 : |(-3 : ℚ) - 3| = 6 := by rw [abs_of_nonpos] <;> norm_num
  have habs3 : |(99 : ℚ) - 3| = 96 := by rw [abs_of_nonneg] <;> norm_num
  have hstop : ¬ ((3 : ℚ) - 3 > 0.02 ∨ False) := by norm_num
  have hcode : rawSolve (fun _ => [3]) 200 [-3] = 20 := by
    unfold rawSolve
    rw [hm1]
    rw [rawSolveIter_step, if_pos ⟨by norm_num, by rw [habs1]; norm_num⟩]
    rw [show npMax ((fun _ : ℕ => [(3 : ℚ)]) 0) = 3 from hm3]
    rw [rawSolveIter_step, if_pos ⟨by norm_num, by rw [habs2]; norm_num⟩]
    rw [show npMax ((fun _ : ℕ => [(3 : ℚ)]) 1) = 3 from hm3]
    rw [rawSolveIter_step,
      if_neg (by rw [show ((3 : ℚ) - 3) = 0 by norm_num, abs_zero]; norm_num)]
  have hclaim : rawSolveClaim (fun _ => [3]) 200 [-3] = 10 := by
    unfold rawSolveClaim
    rw [ha1]
    rw [rawSolveClaimIter_step, if_pos ⟨by norm_num, by rw [habs3]; norm_num⟩]
    rw [show npAbsMax ((fun _ : ℕ => [(3 : ℚ)]) 0) = 3 from ha3]
    rw [rawSolveClaimIter_step,
      if_neg (by rw [show ((3 : ℚ) - 3) = 0 by norm_num, abs_zero]; norm_num)]
  rw [hcode, hclaim]
  norm_num

/-- C5 (code_bug): the filter stage's output is completely independent of the
`filter_window` and `filter_order` arguments — every savgol call hard-codes
window 9 and order 3 — so changing those arguments never changes the smoothing
applied, contrary to the claim and to the driver's own docstring. -/
theorem filter_ignores_window_order (savgol : F3 → ℕ → ℕ → ℕ → F3)
    (fw fo fw2 fo2 : ℕ) (winds : Wind) :
    filterWinds savgol fw fo winds = filterWinds savgol fw2 fo2 winds := rfl

/-- C7 (corrected): the final masking of u and v at cells with zero total
multi-radar weight happens only when `mask_outside_opt` is true (it is not
unconditional), and w is masked there when `mask_outside_opt` or
`mask_w_outside_opt` is true. -/
theorem maskStage_toggles (moo mwo : Bool) (weights : List FQ3) (k j i : ℕ) :
    ((maskStage moo mwo weights).1 k j i = true ↔
        moo = true ∧ whereMaskSum weights k j i < 1) ∧
    ((maskStage moo mwo weights).2.1 k j i = true ↔
        moo = true ∧ whereMaskSum weights k j i < 1) ∧
    ((maskStage moo mwo weights).2.2 k j i = true ↔
        (moo = true ∨ mwo = true) ∧ whereMaskSum weights k j i < 1) := by
  unfold maskStage
  cases moo <;> cases mwo <;> simp

/-- C7 counterexample: with the default configuration
`mask_outside_opt = False, mask_w_outside_opt = True` and a single all-zero
weight array, the cell (0,0,0) has zero total multi-radar weight and yet is
not masked out of the returned u field. -/
theorem maskStage_u_not_always_masked :
    whereMaskSum [fun _ _ _ => (0 : ℚ)] 0 0 0 = 0 ∧
      (maskStage false true [fun _ _ _ => (0 : ℚ)]).1 0 0 0 = false := by
  constructor
  · simp [whereMaskSum]
  · rfl

/-- C8 (confirmed): the retrieval driver raises `ValueError` exactly when the
vertical-vorticity coefficient is nonzero and at least one storm-motion
component is missing; the check sits at the very top of `get_dd_wind_field`,
before any computation on the input grids. -/
theorem validateStormMotion_spec (Ut Vt : Option ℚ) (Cv : ℚ) :
    validateStormMotion Ut Vt Cv = Except.error PyErr.valueError ↔
      Cv ≠ 0 ∧ (Ut = none ∨ Vt = none) := by
  unfold validateStormMotion
  split_ifs with h1 h2 <;> simp_all

/-- C9 (corrected): band-by-band coefficient selection of the fall-speed
estimator.  Below the freezing level the bands split at 55 and 60 dBZ and
above it at 33 and 49 dBZ as claimed, but the splits are not exhaustive:
reflectivity exactly 60 dBZ below the freezing level (and exactly 49 dBZ at or
above it) matches no band and keeps the zero-initialised coefficients. -/
theorem fallSpeed_band_selection (z frz refl : ℚ) :
    (z < frz →
      (refl < 55 → fallSpeedA z frz refl = -2.6 ∧ fallSpeedB z frz refl = 0.0107) ∧
      (55 ≤ refl → refl < 60 →
        fallSpeedA z frz refl = -2.5 ∧ fallSpeedB z frz refl = 0.013) ∧
      (60 < refl → fallSpeedA z frz refl = -3.95 ∧ fallSpeedB z frz refl = 0.0148) ∧
      (refl = 60 → fallSpeedA z frz refl = 0 ∧ fallSpeedB z frz refl = 0)) ∧
    (frz ≤ z →
      (refl < 33 → fallSpeedA z frz refl = -0.817 ∧ fallSpeedB z frz refl = 0.0063) ∧
      (33 ≤ refl → refl < 49 →
        fallSpeedA z frz refl = -2.5 ∧ fallSpeedB z frz refl = 0.013) ∧
      (49 < refl → fallSpeedA z frz refl = -3.95 ∧ fallSpeedB z frz refl = 0.0148) ∧
      (refl = 49 → fallSpeedA z frz refl = 0 ∧ fallSpeedB z frz refl = 0)) := by
  constructor
  · intro hz
    have hz2 : ¬ frz ≤ z := not_le.mpr hz
    refine ⟨fun h55 => ?_, fun h55a h55b => ?_, fun h60 => ?_, fun h60 => ?_⟩
    · have c1 : z < frz ∧ refl < 55 := ⟨hz, h55⟩
      simp only [fallSpeedA, fallSpeedB, if_pos c1]
      exact ⟨trivial, trivial⟩
    · have c1 : ¬(z < frz ∧ refl < 55) := fun hc => absurd hc.2 (not_lt.mpr h55a)
      have c2 : z < frz ∧ (55 ≤ refl ∧ refl < 60) := ⟨hz, h55a, h55b⟩
      simp only [fallSpeedA, fallSpeedB, if_neg c1, if_pos c2]
      exact ⟨trivial, trivial⟩
    · have c1 : ¬(z < frz ∧ refl < 55) := fun hc => by linarith [hc.2]
      have c2 : ¬(z < frz ∧ (55 ≤ refl ∧ refl < 60)) := fun hc => by linarith [hc.2.2]
      have c3 : z < frz ∧ refl > 60 := ⟨hz, h60⟩
      simp only [fallSpeedA, fallSpeedB, if_neg c1, if_neg c2, if_pos c3]
      exact ⟨trivial, trivial⟩
    · subst h60
      have c1 : ¬(z < frz ∧ (60 : ℚ) < 55) := fun hc => by norm_num at hc
      have c2 : ¬(z < frz ∧ ((55 : ℚ) ≤ 60 ∧ (60 : ℚ) < 60)) := fun hc => by
        norm_num at hc
      have c3 : ¬(z < frz ∧ (60 : ℚ) > 60) := fun hc => by norm_num at hc
      have c4 : ¬(frz ≤ z ∧ (60 : ℚ) < 33) := fun hc => absurd hc.1 hz2
      have c5 : ¬(frz ≤ z ∧ ((33 : ℚ) ≤ 60 ∧ (60 : ℚ) < 49)) := fun hc => absurd hc.1 hz2
      have c6 : ¬(frz ≤ z ∧ (60 : ℚ) > 49) := fun hc => absurd hc.1 hz2
      simp only [fallSpeedA, fallSpeedB, if_neg c1, if_neg c2, if_neg c3, if_neg c4,
        if_neg c5, if_neg c6]
      exact ⟨trivial, trivial⟩
  · intro hz
    have hz2 : ¬ z < frz := not_lt.mpr hz
    refine ⟨fun h33 => ?_, fun h33a h33b => ?_, fun h49 => ?_, fun h49 => ?_⟩
    · have c1 : ¬(z < frz ∧ refl < 55) := fun hc => absurd hc.1 hz2
      have c2 : ¬(z < frz ∧ (55 ≤ refl ∧ refl < 60)) := fun hc => absurd hc.1 hz2
      have c3 : ¬(z < frz ∧ refl > 60) := fun hc => absurd hc.1 hz2
      have c4 : frz ≤ z ∧ refl < 33 := ⟨hz, h33⟩
      simp only [fallSpeedA, fallSpeedB, if_neg c1, if_neg c2, if_neg c3, if_pos c4]
      exact ⟨trivial, trivial⟩
    · have c1 : ¬(z < frz ∧ refl < 55) := fun hc => absurd hc.1 hz2
      have c2 : ¬(z < frz ∧ (55 ≤ refl ∧ refl < 60)) := fun hc => absurd hc.1 hz2
      have c3 : ¬(z < frz ∧ refl > 60) := fun hc => absurd hc.1 hz2
      have c4 : ¬(frz ≤ z ∧ refl < 33) := fun hc => absurd hc.2 (not_lt.mpr h33a)
      have c5 : frz ≤ z ∧ (33 ≤ refl ∧ refl < 49) := ⟨hz, h33a, h33b⟩
      simp only [fallSpeedA, fallSpeedB, if_neg c1, if_neg c2, if_neg c3, if_neg c4,
        if_pos c5]
      exact ⟨trivial, trivial⟩
    · have c1 : ¬(z < frz ∧ refl < 55) := fun hc => absurd hc.1 hz2
      have c2 : ¬(z < frz ∧ (55 ≤ refl ∧ refl < 60)) := fun hc => absurd hc.1 hz2
      have c3 : ¬(z < frz ∧ refl > 60) := fun hc => absurd hc.1 hz2
      have c4 : ¬(frz ≤ z ∧ refl < 33) := fun hc => by linarith [hc.2]
      have c5 : ¬(frz ≤ z ∧ (33 ≤ refl ∧ refl < 49)) := fun hc => by linarith [hc.2.2]
      have c6 : frz ≤ z ∧ refl > 49 := ⟨hz, h49⟩
      simp only [fallSpeedA, fallSpeedB, if_neg c1, if_neg c2, if_neg c3, if_neg c4,
        if_neg c5, if_pos c6]
      exact ⟨trivial, trivial⟩
    · subst h49
      have c1 : ¬(z < frz ∧ (49 : ℚ) < 55) := fun hc => absurd hc.1 hz2
      have c2 : ¬(z < frz ∧ ((55 : ℚ) ≤ 49 ∧ (49 : ℚ) < 60)) := fun hc => absurd hc.1 hz2
      have c3 : ¬(z < frz ∧ (49 : ℚ) > 60) := fun hc => absurd hc.1 hz2
      have c4 : ¬(frz ≤ z ∧ (49 : ℚ) < 33) := fun hc => by norm_num at hc
      have c5 : ¬(frz ≤ z ∧ ((33 : ℚ) ≤ 49 ∧ (49 : ℚ) < 49)) := fun hc => by
        norm_num at hc
      have c6 : ¬(frz ≤ z ∧ (49 : ℚ) > 49) := fun hc => by norm_num at hc
      simp only [fallSpeedA, fallSpeedB, if_neg c1, if_neg c2, if_neg c3, if_neg c4,
        if_neg c5, if_neg c6]
      exact ⟨trivial, trivial⟩

/-- C9 witness: reflectivity 40 dBZ at height 1000 m with freezing level
4500 m selects A = -2.6 and B = 0.0107. -/
theorem fallSpeed_band_selection_witness :
    fallSpeedA 1000 4500 40 = -2.6 ∧ fallSpeedB 1000 4500 40 = 0.0107 :=
  ((fallSpeed_band_selection 1000 4500 40).1 (by norm_num)).1 (by norm_num)

/-- C9 counterexample: reflectivity exactly 60 dBZ below the freezing level
selects none of the documented coefficient pairs — both coefficients stay at
their zero initialisation, so not every input falls into a band. -/
theorem fallSpeed_band_gap :
    (fallSpeedA 1000 4500 60, fallSpeedB 1000 4500 60) ∉ fallSpeedBandPairs ∧
      fallSpeedA 1000 4500 60 = 0 ∧ fallSpeedB 1000 4500 60 = 0 := by
  have hA : fallSpeedA 1000 4500 60 = 0 := by norm_num [fallSpeedA]
  have hB : fallSpeedB 1000 4500 60 = 0 := by norm_num [fallSpeedB]
  refine ⟨?_, hA, hB⟩
  rw [hA, hB]
  norm_num [fallSpeedBandPairs, List.mem_cons, Prod.mk.injEq]
  refine ⟨?_, ?_, ?_, ?_⟩ <;> intro h <;>
    exact absurd (congrArg Prod.fst h) (by norm_num)

/-- C1 (corrected): with the driver's normalisation constant `rmsVr_code` (the
weighted mean of the squared radial velocities — not its square root), the
data term equals `Co / rmsVr² · Σ_radars Σ_cells weight · (observed −
projected)²`, where each radar's weight array has first been zeroed at its
masked cells. -/
theorem radial_cost_formula (nz ny nx : ℕ) (radars : List RadarObs)
    (weights : List F3) (u v w : F3) (coeff : ℝ) :
    (calculate_radial_vel_cost_function nz ny nx radars u v w
        (rmsVr_code nz ny nx radars weights) weights coeff).1 =
      coeff / (rmsVr_code nz ny nx radars weights * rmsVr_code nz ny nx radars weights) *
        ((radars.zip weights).map (fun rw => gridSum nz ny nx (fun k j i =>
            (rw.1.vr k j i - radialProjection rw.1 u v w k j i) ^ 2 *
              applyObsMasks rw.1 rw.2 k j i))).sum := by
  unfold calculate_radial_vel_cost_function
  rw [radialFold_spec]
  simp

/-- C1 counterexample: on a 1×1×1 grid with one radar seeing radial velocity 2
at zero azimuth and elevation, weight 1 and zero wind, the code's data term is
1/4 while the claimed formula (normalising by the square of the root mean
square) gives 1. -/
theorem radial_cost_rms_counterexample :
    (calculate_radial_vel_cost_function 1 1 1 [cexRadar] zeroF zeroF zeroF
        (rmsVr_code 1 1 1 [cexRadar] [oneF]) [oneF] 1).1 ≠
      dataTermClaim 1 1 1 [cexRadar] [oneF] zeroF zeroF zeroF 1 := by
  have hproj : ∀ k j i : ℕ, radialProjection cexRadar zeroF zeroF zeroF k j i = 0 := by
    intro k j i
    simp [radialProjection, cexRadar, zeroF]
  have hrms : rmsVr_code 1 1 1 [cexRadar] [oneF] = 4 := by
    simp [rmsVr_code, gridSum, cexRadar, oneF]
    norm_num
  have hgrid1 : gridSum 1 1 1 (fun k j i =>
      (cexRadar.vr k j i - radialProjection cexRadar zeroF zeroF zeroF k j i) ^ 2 *
        applyObsMasks cexRadar oneF k j i) = 4 := by
    simp only [gridSum, Finset.sum_range_one]
    rw [hproj]
    norm_num [cexRadar, oneF, applyObsMasks, maskZero]
  have hgrid2 : gridSum 1 1 1 (fun k j i =>
      oneF k j i *
        (cexRadar.vr k j i - radialProjection cexRadar zeroF zeroF zeroF k j i) ^ 2) = 4 := by
    simp only [gridSum, Finset.sum_range_one]
    rw [hproj]
    norm_num [cexRadar, oneF]
  have hL : (calculate_radial_vel_cost_function 1 1 1 [cexRadar] zeroF zeroF zeroF
      (rmsVr_code 1 1 1 [cexRadar] [oneF]) [oneF] 1).1 = 1 / 4 := by
    unfold calculate_radial_vel_cost_function
    rw [radialFold_spec]
    simp [hrms, hgrid1]
  have hR : dataTermClaim 1 1 1 [cexRadar] [oneF] zeroF zeroF zeroF 1 = 1 := by
    unfold dataTermClaim rmsOfValid
    rw [hrms]
    simp only [List.zip_cons_cons, List.zip_nil_right, List.map_cons, List.map_nil,
      List.sum_cons, List.sum_nil, add_zero, hgrid2]
    rw [Real.mul_self_sqrt (by norm_num)]
    norm_num
  rw [hL, hR]
  norm_num

/-- C3 (corrected): the radial-velocity data cost is not pure in its weights
input — it returns the weight arrays updated in place, each one equal to the
input array zeroed exactly at that radar's masked cells and unchanged
elsewhere. -/
theorem radial_cost_weights_characterization (nz ny nx : ℕ) (radars : List RadarObs)
    (weights : List F3) (u v w : F3) (rmsVr coeff : ℝ) :
    (calculate_radial_vel_cost_function nz ny nx radars u v w rmsVr weights coeff).2 =
        (radars.zip weights).map (fun rw => applyObsMasks rw.1 rw.2) ∧
      ∀ (r : RadarObs) (wt : F3) (k j i : ℕ),
        applyObsMasks r wt k j i =
          if r.elMask k j i ∨ r.azMask k j i ∨ r.vrMask k j i ∨ r.wtMask k j i then 0
          else wt k j i := by
  constructor
  · unfold calculate_radial_vel_cost_function
    rw [radialFold_spec]
    simp
  · intro r wt k j i
    unfold applyObsMasks maskZero
    cases h1 : r.elMask k j i <;> cases h2 : r.azMask k j i <;>
      cases h3 : r.vrMask k j i <;> cases h4 : r.wtMask k j i <;> simp

/-- C3 counterexample: evaluating the radial-velocity cost on a radar whose
radial-velocity observations are masked changes the weights array that was
passed in — the all-ones weight array comes back zeroed. -/
theorem radial_cost_mutates_weights :
    (calculate_radial_vel_cost_function 1 1 1 [cexMaskedRadar] zeroF zeroF zeroF
        1 [oneF] 1).2 ≠ [oneF] := by
  intro h
  have h1 : (calculate_radial_vel_cost_function 1 1 1 [cexMaskedRadar] zeroF zeroF zeroF
      1 [oneF] 1).2 = [applyObsMasks cexMaskedRadar oneF] := by
    unfold calculate_radial_vel_cost_function
    rw [radialFold_spec]
    simp
  rw [h1] at h
  have h2 : applyObsMasks cexMaskedRadar oneF = oneF := by
    simpa using h
  have h3 := congrFun (congrFun (congrFun h2 0) 0) 0
  simp [applyObsMasks, maskZero, cexMaskedRadar, oneF] at h3

/-- C10 (confirmed): whenever the background coefficient is positive, `grad_J`
ends in a `TypeError` before returning any gradient, because its call to
`calculate_background_gradient` passes the keyword argument `upper_bc`, which
that function's signature does not accept. -/
theorem grad_J_background_type_error (nz ny nx : ℕ) (radars : List RadarObs)
    (weights : List F3) (bg_weights : F3) (u_back v_back : ℕ → ℝ) (u v w z : F3)
    (Co Cm Cx Cy Cz Cb Cv Ut Vt dx dy dz rmsVr : ℝ) (ub : Bool) (hCb : Cb > 0) :
    grad_J nz ny nx radars weights bg_weights u_back v_back u v w z
      Co Cm Cx Cy Cz Cb Cv Ut Vt dx dy dz rmsVr ub = Except.error PyErr.typeError :=
  grad_J_error_of_Cb_pos nz ny nx radars weights bg_weights u_back v_back u v w z
    Co Cm Cx Cy Cz Cb Cv Ut Vt dx dy dz rmsVr ub hCb

/-- C10 witness: a concrete configuration with `Cb = 1` on which `grad_J`
raises the `TypeError`. -/
theorem grad_J_background_type_error_witness :
    grad_J 1 1 1 [] [] zeroF (fun _ => 0) (fun _ => 0) zeroF zeroF zeroF zeroF
      0 0 0 0 0 1 0 0 0 1 1 1 1 true = Except.error PyErr.typeError :=
  grad_J_background_type_error 1 1 1 [] [] zeroF (fun _ => 0) (fun _ => 0)
    zeroF zeroF zeroF zeroF 0 0 0 0 0 1 0 0 0 1 1 1 1 true (by norm_num)

/-- C6 (code_bug): at a cell whose beam-crossing angle (0 rad) lies outside
the configured 30°–150° range, with the primary radar's observation valid, the
implemented loop still sets the background weight to 1 — its `logical_or`
makes the in-range test hold for every angle — while the claimed rule gives 0. -/
theorem bg_weights_or_bug :
    bgWeightsLoop 2 1 (fun _ _ _ _ => 0) 30 150 (fun _ _ _ _ => false) 0 0 0 = 1 ∧
      bgWeightsClaim (fun _ _ _ _ => 0) 30 150 (fun _ _ _ _ => false) 0 1 0 0 0 = 0 := by
  constructor
  · have hpairs : radarPairs 2 = [(0, 1)] := rfl
    have hmax : (0 : ℝ) ≤ radiansOf 150 := by
      unfold radiansOf
      positivity
    have hr1 : List.range 1 = [0] := rfl
    unfold bgWeightsLoop
    rw [hpairs, hr1]
    simp only [List.foldl_cons, List.foldl_nil]
    unfold bgPairLevelStep
    simp [hmax]
  · have hmin : ¬ (radiansOf 30 ≤ (0 : ℝ)) := by
      rw [not_le]
      unfold radiansOf
      positivity
    unfold bgWeightsClaim
    rw [if_neg (fun hc => absurd hc.1.1 hmin)]

/-- C2 (corrected): whenever `grad_J` returns a gradient and the
vertical-vorticity coefficient is zero, the w-component of the total gradient
is exactly 0 at the surface level for every input, and exactly 0 at the top
level when the upper boundary flag is enabled.  (With `Cv > 0` the vorticity
term — which applies no boundary condition — can break this; see the
counterexample.) -/
theorem grad_J_surface_zero (nz ny nx : ℕ) (radars : List RadarObs)
    (weights : List F3) (bg_weights : F3) (u_back v_back : ℕ → ℝ) (u v w z : F3)
    (Co Cm Cx Cy Cz Cb Cv Ut Vt dx dy dz rmsVr : ℝ) (ub : Bool)
    (hCv : Cv = 0) (g : Wind)
    (hok : grad_J nz ny nx radars weights bg_weights u_back v_back u v w z
        Co Cm Cx Cy Cz Cb Cv Ut Vt dx dy dz rmsVr ub = Except.ok g)
    (j i : ℕ) :
    g.w 0 j i = 0 ∧ (ub = true → g.w (nz - 1) j i = 0) := by
  by_cases hCb : Cb > 0
  · rw [grad_J_error_of_Cb_pos nz ny nx radars weights bg_weights u_back v_back u v w z
      Co Cm Cx Cy Cz Cb Cv Ut Vt dx dy dz rmsVr ub hCb] at hok
    exact absurd hok (by simp)
  · subst hCv
    simp only [grad_J, if_neg hCb, Except.map, gt_iff_lt, lt_self_iff_false, if_false,
      Except.ok.injEq] at hok
    subst hok
    constructor
    · by_cases hm : Cm > 0 <;> by_cases hs : Cx > 0 ∨ Cy > 0 ∨ Cz > 0 <;>
        simp [hm, hs, Wind.add_w_apply, grad_radial_w_surface, mass_gradient_w_surface,
          smoothness_gradient_w_surface]
    · intro hub
      subst hub
      by_cases hm : Cm > 0 <;> by_cases hs : Cx > 0 ∨ Cy > 0 ∨ Cz > 0 <;>
        simp [hm, hs, Wind.add_w_apply, grad_radial_w_top, mass_gradient_w_top,
          smoothness_gradient_w_top]

/-- C2 witness: a concrete configuration (all coefficients zero, two-level
grid, upper boundary enforced) at which `grad_J` returns a gradient whose
w-component vanishes at the surface level. -/
theorem grad_J_surface_zero_witness :
    (calculate_grad_radial_vel 2 ([] : List RadarObs) [] zeroF zeroF zeroF 1 0 true).w
      0 0 0 = 0 := by
  have hok : grad_J 2 2 2 [] [] zeroF (fun _ => 0) (fun _ => 0) zeroF zeroF zeroF zeroF
      0 0 0 0 0 0 0 0 0 1 1 1 1 true =
      Except.ok (calculate_grad_radial_vel 2 [] [] zeroF zeroF zeroF 1 0 true) := by
    norm_num [grad_J, Except.map]
  exact (grad_J_surface_zero 2 2 2 [] [] zeroF (fun _ => 0) (fun _ => 0)
    zeroF zeroF zeroF zeroF 0 0 0 0 0 0 0 0 0 1 1 1 1 true rfl _ hok 0 0).1

/-- C2 counterexample: with `Cv = 1` (storm motion supplied, all other
coefficients zero), no radars, `u = 0`, `v(k,j,i) = k*i`, `w = 1` on a 2×2×2
grid, `grad_J` returns a gradient whose w-component at the surface level is 2,
not 0 — the vorticity gradient enforces no impermeability condition. -/
theorem grad_J_surface_counterexample :
    surfaceGradW (grad_J 2 2 2 [] [] zeroF (fun _ => 0) (fun _ => 0)
      zeroF cexV oneF zeroF 0 0 0 0 0 0 1 0 0 1 1 1 1 true) 0 0 ≠ 0 := by
  have hvort : (calculate_vertical_vorticity_gradient 2 2 2 zeroF cexV oneF
      1 1 1 0 0 1).w 0 0 0 = 2 := by
    norm_num [calculate_vertical_vorticity_gradient, npGradX, npGradY, npGradZ,
      cexV, oneF, zeroF]
  have hok : grad_J 2 2 2 [] [] zeroF (fun _ => 0) (fun _ => 0) zeroF cexV oneF zeroF
      0 0 0 0 0 0 1 0 0 1 1 1 1 true =
      Except.ok (calculate_grad_radial_vel 2 [] [] zeroF cexV oneF 1 0 true +
        calculate_vertical_vorticity_gradient 2 2 2 zeroF cexV oneF 1 1 1 0 0 1) := by
    norm_num [grad_J, Except.map]
  rw [hok]
  simp only [surfaceGradW]
  rw [Wind.add_w_apply, grad_radial_w_surface, hvort]
  norm_num

end




